import Mathlib

/-!
# TO2.Done (`msg70`) of the FIDO Device Onboard client SDK

A shallow embedding of `src/lib/prot/to2/msg70.c` and the properties of the
handshake-completion transition that are checked against it.

`msg70` is a straight-line C function over the protocol context `ps`.  It moves
pointers between two structures, calls a handful of functions that live outside
this file and returns an `int32_t`.  In the embedding

* a C pointer is an `Option Nat`: `none` is `NULL`, `some a` is the address of an
  object.  `msg70` never looks inside the guid, the rendezvous list or the public
  key; it only copies and releases the pointers, so two fields hold the same
  object exactly when they hold the same address;
* the functions defined elsewhere (`store_credential`, the `fdow_*` writer,
  `fdo_encrypted_packet_windup`, `fdo_generate_storage_hmac_key`) and the
  constants of the headers are parameters, collected in `Env`;
* every call that leaves the function is appended to a trace, in program order,
  and every `LOG` to a separate log; the external functions are taken not to
  write to the fields of `ps` kept here (the writer works on `ps->fdow`, which is
  represented by the writer calls of the trace);
* `ps`, `ps->dev_cred`, `ps->dev_cred->owner_blk` and `ps->osc` are dereferenced
  by `msg70` without a check, so they are plain fields here; the pointers that
  `msg70` only copies or tests (`guid`, `rvlst`, `pk`, `pubkey`, `iv`,
  `nonce_to2provedv`) may be NULL.
-/

namespace FDO

/-! ## Data model -/

/-- A C pointer: `none` is NULL, `some a` is the address of an object. -/
abbrev Ptr := Option Nat

/-- The two log levels used by `msg70`. -/
inductive LogLevel where
  | LOG_ERROR
  | LOG_DEBUG
  deriving DecidableEq, Repr

/-- A byte array (`byte_sz`, `bytes`), the pointee of `ps->nonce_to2provedv`. -/
structure fdo_byte_array_t where
  byte_sz : Nat
  bytes : List Nat
  deriving DecidableEq, Repr

/-- The owner block `ps->dev_cred->owner_blk`: three pointers. -/
structure fdo_cred_owner_t where
  guid : Ptr
  rvlst : Ptr
  pk : Ptr
  deriving DecidableEq, Repr

/-- The device credential `ps->dev_cred`: device state `ST` and the owner block. -/
structure fdo_dev_cred_t where
  ST : Int
  owner_blk : fdo_cred_owner_t
  deriving DecidableEq, Repr

/-- The owner supplied credentials `ps->osc` (the pending owner). -/
structure fdo_owner_supplied_credentials_t where
  guid : Ptr
  rvlst : Ptr
  pubkey : Ptr
  deriving DecidableEq, Repr

/-- The fields of the protocol context `fdo_prot_t` that `msg70` reads or writes.
`ps->fdow` is the writer object; it is external and is represented by the writer
calls recorded in the trace. -/
structure fdo_prot_t where
  dev_cred : fdo_dev_cred_t
  osc : fdo_owner_supplied_credentials_t
  reuse_enabled : Bool
  nonce_to2provedv : Option fdo_byte_array_t
  iv : Ptr
  success : Bool
  state : Int
  deriving DecidableEq, Repr

/-- One call from `msg70` to a function defined outside the file, with the
arguments it is given.  `store_credential` receives `ps->dev_cred`; the record is
the value of the credential at the moment of the call. -/
inductive Call where
  | fdo_byte_array_free (p : Ptr)
  | fdo_rendezvous_list_free (p : Ptr)
  | fdo_public_key_free (p : Ptr)
  | fdo_generate_storage_hmac_key
  | store_credential (cred : fdo_dev_cred_t)
  | fdow_next_block (type : Int)
  | fdow_start_array (array_items : Nat)
  | fdow_byte_string (bytes : List Nat) (byte_sz : Nat)
  | fdow_end_array
  | fdo_encrypted_packet_windup (type : Int) (iv : Ptr)
  | fdo_hash_free (p : Ptr)
  deriving DecidableEq, Repr

/-- What `msg70` takes from the rest of the SDK: the two capability flags, the
enumeration constants of the headers, and the outcome of each external function
as a function of its arguments.  Each of these functions is called at most once
in a run of `msg70`. -/
structure Env where
  reuse_supported : Bool
  resale_supported : Bool
  FDO_DEVICE_STATE_READY1 : Int
  FDO_DEVICE_STATE_IDLE : Int
  FDO_TO2_DONE : Int
  FDO_STATE_TO2_RCV_DONE_2 : Int
  fdo_generate_storage_hmac_key : Int
  store_credential : fdo_dev_cred_t → Int
  fdow_start_array : Nat → Bool
  fdow_byte_string : List Nat → Nat → Bool
  fdow_end_array : Bool
  fdo_encrypted_packet_windup : Int → Ptr → Bool

/-- The machine state while `msg70` runs: the context, the calls made so far and
the log lines written so far (both oldest first). -/
structure Run where
  ps : fdo_prot_t
  trace : List Call
  log : List (LogLevel × String)

/-- The result of a run of `msg70`: the returned `int32_t` and the final state. -/
structure Out where
  ret : Int
  ps : fdo_prot_t
  trace : List Call
  log : List (LogLevel × String)

/-- The macro `LOG(level, msg)`. -/
def Run.LOG (r : Run) (level : LogLevel) (msg : String) : Run :=
  { r with log := r.log ++ [(level, msg)] }

/-- Record a call to an external function. -/
def Run.call (r : Run) (c : Call) : Run :=
  { r with trace := r.trace ++ [c] }

/-- The assignment `ps->dev_cred->owner_blk->guid = p`. -/
def Run.set_owner_blk_guid (r : Run) (p : Ptr) : Run :=
  { r with ps.dev_cred.owner_blk.guid := p }

/-- The assignment `ps->dev_cred->owner_blk->rvlst = p`. -/
def Run.set_owner_blk_rvlst (r : Run) (p : Ptr) : Run :=
  { r with ps.dev_cred.owner_blk.rvlst := p }

/-- The assignment `ps->dev_cred->owner_blk->pk = p`. -/
def Run.set_owner_blk_pk (r : Run) (p : Ptr) : Run :=
  { r with ps.dev_cred.owner_blk.pk := p }

/-- The assignment `ps->dev_cred->ST = st`. -/
def Run.set_ST (r : Run) (st : Int) : Run :=
  { r with ps.dev_cred.ST := st }

/-- The assignment `ps->success = b`. -/
def Run.set_success (r : Run) (b : Bool) : Run :=
  { r with ps.success := b }

/-- The assignment `ps->state = st`. -/
def Run.set_state (r : Run) (st : Int) : Run :=
  { r with ps.state := st }

/-- A C `bool` converted to the `int32_t` return type: `false` is 0, `true` is 1. -/
def bool_to_int32 (b : Bool) : Int := if b then 1 else 0

/-- Leave the function with a `return` statement. -/
def Run.leave (r : Run) (ret : Int) : Out :=
  { ret := ret, ps := r.ps, trace := r.trace, log := r.log }

/-- The label `err:` (lines 111-114): release `hmac` if it is set, return `ret`. -/
def err (r : Run) (ret : Int) (hmac : Ptr) : Out :=
  let r := if hmac.isSome then r.call (.fdo_hash_free hmac) else r
  r.leave ret

/-! ## The function -/

/-- The function `msg70` (TO2.Done), lines 26-115 of `msg70.c`, statement by
statement. -/
def msg70 (env : Env) (ps : fdo_prot_t) : Out :=
  -- 28-29
  let ret : Int := -1
  let hmac : Ptr := none
  let r : Run := { ps := ps, trace := [], log := [] }
  -- 31
  let r := r.LOG .LOG_DEBUG "TO2.Done started\n"
  -- 41-42
  let r := r.call (.fdo_byte_array_free r.ps.dev_cred.owner_blk.guid)
  let r := r.set_owner_blk_guid r.ps.osc.guid
  -- 44-45
  let r := r.call (.fdo_rendezvous_list_free r.ps.dev_cred.owner_blk.rvlst)
  let r := r.set_owner_blk_rvlst r.ps.osc.rvlst
  -- 47-48
  let r := r.call (.fdo_public_key_free r.ps.dev_cred.owner_blk.pk)
  let r := r.set_owner_blk_pk r.ps.osc.pubkey
  -- 50-57
  let r :=
    if r.ps.reuse_enabled && env.reuse_supported then
      r.set_ST env.FDO_DEVICE_STATE_READY1
    else if env.resale_supported then
      r.set_ST env.FDO_DEVICE_STATE_IDLE
    else r
  -- 60-63
  let r := r.call .fdo_generate_storage_hmac_key
  let r :=
    if 0 != env.fdo_generate_storage_hmac_key then
      r.LOG .LOG_ERROR "TO2.Done: Failed to rotate data protection key.\n"
    else r
  let r := r.LOG .LOG_DEBUG "TO2.Done: Data protection key rotated successfully!!\n"
  -- 66-69
  let r := r.call (.store_credential r.ps.dev_cred)
  if env.store_credential r.ps.dev_cred != 0 then
    err (r.LOG .LOG_ERROR "TO2.Done: Failed to store new device creds\n") ret hmac
  else
  -- 70
  let r := r.LOG .LOG_DEBUG "TO2.Done: Updated device with new credentials\n"
  -- 74-76
  let r := r.set_owner_blk_guid none
  let r := r.set_owner_blk_rvlst none
  let r := r.set_owner_blk_pk none
  -- 78
  let r := r.call (.fdow_next_block env.FDO_TO2_DONE)
  -- 80-83
  let r := r.call (.fdow_start_array 1)
  if !env.fdow_start_array 1 then
    (r.LOG .LOG_ERROR "TO2.Done: Failed to start array\n").leave (bool_to_int32 false)
  else
  -- 85-88
  match r.ps.nonce_to2provedv with
  | none =>
    (r.LOG .LOG_ERROR "TO2.Done: NonceTO2ProveDv not found\n").leave (bool_to_int32 false)
  | some nonce =>
  -- 90-94
  let r := r.call (.fdow_byte_string nonce.bytes nonce.byte_sz)
  if !env.fdow_byte_string nonce.bytes nonce.byte_sz then
    (r.LOG .LOG_ERROR "TO2.Done: Failed to write NonceTO2ProveDv\n").leave (bool_to_int32 false)
  else
  -- 96-99
  let r := r.call .fdow_end_array
  if !env.fdow_end_array then
    (r.LOG .LOG_ERROR "TO2.Done: Failed to end array\n").leave (bool_to_int32 false)
  else
  -- 101-104
  let r := r.call (.fdo_encrypted_packet_windup env.FDO_TO2_DONE r.ps.iv)
  if !env.fdo_encrypted_packet_windup env.FDO_TO2_DONE r.ps.iv then
    err (r.LOG .LOG_ERROR "TO2.Done: Failed to create Encrypted Message\n") ret hmac
  else
  -- 106-109
  let r := r.set_success true
  let r := r.set_state env.FDO_STATE_TO2_RCV_DONE_2
  let r := r.LOG .LOG_DEBUG "TO2.Done completed successfully\n"
  let ret : Int := 0
  -- 111-114
  err r ret hmac

/-! ## Reading a trace -/

/-- The records handed to `store_credential`, in call order. -/
def store_calls : List Call → List fdo_dev_cred_t
  | [] => []
  | .store_credential cred :: cs => cred :: store_calls cs
  | _ :: cs => store_calls cs

/-- A message-construction call: the writer and the envelope step. -/
def Call.is_message_call : Call → Bool
  | .fdow_next_block _ => true
  | .fdow_start_array _ => true
  | .fdow_byte_string _ _ => true
  | .fdow_end_array => true
  | .fdo_encrypted_packet_windup _ _ => true
  | _ => false

/-- The message-construction calls of a trace, in call order. -/
def message_calls (tr : List Call) : List Call :=
  tr.filter Call.is_message_call

/-! ## Sample inputs -/

/-- A sample environment: reuse not supported, resale supported, every external
call succeeds.  The four constants are sample values. -/
def env_ok : Env where
  reuse_supported := false
  resale_supported := true
  FDO_DEVICE_STATE_READY1 := 3
  FDO_DEVICE_STATE_IDLE := 5
  FDO_TO2_DONE := 70
  FDO_STATE_TO2_RCV_DONE_2 := 71
  fdo_generate_storage_hmac_key := 0
  store_credential := fun _ => 0
  fdow_start_array := fun _ => true
  fdow_byte_string := fun _ _ => true
  fdow_end_array := true
  fdo_encrypted_packet_windup := fun _ _ => true

/-- A sample session: previous owner block at addresses 10, 11, 12, pending owner
at 20, 21, 22, nonce `N1` (bytes 78, 49), reuse disabled. -/
def ps_ok : fdo_prot_t where
  dev_cred := { ST := 2, owner_blk := { guid := some 10, rvlst := some 11, pk := some 12 } }
  osc := { guid := some 20, rvlst := some 21, pubkey := some 22 }
  reuse_enabled := false
  nonce_to2provedv := some { byte_sz := 2, bytes := [78, 49] }
  iv := some 30
  success := false
  state := 70

/-! ## What the spec expects at the persist step -/

/-- The device state the spec selects: ready for re-provisioning if reuse is
enabled on the session and supported, else idle/resale if resale is supported,
else the previous state. -/
def spec_device_state (env : Env) (ps : fdo_prot_t) : Int :=
  if ps.reuse_enabled = true ∧ env.reuse_supported = true then env.FDO_DEVICE_STATE_READY1
  else if env.resale_supported = true then env.FDO_DEVICE_STATE_IDLE
  else ps.dev_cred.ST

/-- The record the spec expects at the persist step: the selected device state
and the owner block taken whole from the pending owner. -/
def spec_committed_record (env : Env) (ps : fdo_prot_t) : fdo_dev_cred_t :=
  { ST := spec_device_state env ps,
    owner_blk := { guid := ps.osc.guid, rvlst := ps.osc.rvlst, pk := ps.osc.pubkey } }

/-! ## More sample inputs -/

/-- The sample environment with `store_credential` failing. -/
def env_store_fail : Env :=
  { env_ok with store_credential := fun _ => -1 }

/-- The sample environment with `fdow_start_array` failing. -/
def env_start_fail : Env :=
  { env_ok with fdow_start_array := fun _ => false }

/-- The sample session without a proof nonce. -/
def ps_no_nonce : fdo_prot_t :=
  { ps_ok with nonce_to2provedv := none }

/-- The sample session whose pending owner has no guid. -/
def ps_no_guid : fdo_prot_t :=
  { ps_ok with osc := { guid := none, rvlst := some 21, pubkey := some 22 } }

/-- The sample environment with reuse supported and `store_credential` failing. -/
def env_reuse : Env :=
  { env_store_fail with reuse_supported := true }

/-- The sample session with reuse enabled. -/
def ps_reuse : fdo_prot_t :=
  { ps_ok with reuse_enabled := true }

/-- Two pointer fields hold the same object: both are set, to the same address. -/
def same_object (a b : Ptr) : Bool :=
  a.isSome && a == b

/-! ## The paths through the function -/

/-- The calls made up to and including the persist step. -/
def commit_calls (env : Env) (ps : fdo_prot_t) : List Call :=
  [.fdo_byte_array_free ps.dev_cred.owner_blk.guid,
   .fdo_rendezvous_list_free ps.dev_cred.owner_blk.rvlst,
   .fdo_public_key_free ps.dev_cred.owner_blk.pk,
   .fdo_generate_storage_hmac_key,
   .store_credential (spec_committed_record env ps)]

/-- The context after the aliases of the owner block have been dropped. -/
def voided (env : Env) (ps : fdo_prot_t) : fdo_prot_t :=
  { ps with dev_cred := { ST := spec_device_state env ps,
                          owner_blk := { guid := none, rvlst := none, pk := none } } }

/-- The seven ways through `msg70`, one line each: returned value, final context
and calls made.  `msg70_outcome` below shows that `msg70` computes exactly this. -/
def outcome (env : Env) (ps : fdo_prot_t) : Int × fdo_prot_t × List Call :=
  let pre := commit_calls env ps
  let nb := Call.fdow_next_block env.FDO_TO2_DONE
  let sa := Call.fdow_start_array 1
  let wu := Call.fdo_encrypted_packet_windup env.FDO_TO2_DONE ps.iv
  if env.store_credential (spec_committed_record env ps) ≠ 0 then
    (-1, { ps with dev_cred := spec_committed_record env ps }, pre)
  else if env.fdow_start_array 1 = false then
    (0, voided env ps, pre ++ [nb, sa])
  else
    match ps.nonce_to2provedv with
    | none => (0, voided env ps, pre ++ [nb, sa])
    | some nonce =>
      let bs := Call.fdow_byte_string nonce.bytes nonce.byte_sz
      if env.fdow_byte_string nonce.bytes nonce.byte_sz = false then
        (0, voided env ps, pre ++ [nb, sa, bs])
      else if env.fdow_end_array = false then
        (0, voided env ps, pre ++ [nb, sa, bs, .fdow_end_array])
      else if env.fdo_encrypted_packet_windup env.FDO_TO2_DONE ps.iv = false then
        (-1, voided env ps, pre ++ [nb, sa, bs, .fdow_end_array, wu])
      else
        (0, { voided env ps with success := true, state := env.FDO_STATE_TO2_RCV_DONE_2 },
          pre ++ [nb, sa, bs, .fdow_end_array, wu])

/-! ## Theorems -/

set_option maxHeartbeats 4000000 in
/-- The function `msg70` follows one of the seven paths of `outcome`. -/
theorem msg70_outcome (env : Env) (ps : fdo_prot_t) :
    ((msg70 env ps).ret, (msg70 env ps).ps, (msg70 env ps).trace) = outcome env ps := by
  have hk' : (0 = env.fdo_generate_storage_hmac_key) =
      (env.fdo_generate_storage_hmac_key = 0) := propext eq_comm
  by_cases hk : env.fdo_generate_storage_hmac_key = 0 <;>
  cases h1 : ps.reuse_enabled <;> cases h2 : env.reuse_supported <;>
    cases h3 : env.resale_supported <;> cases hn : ps.nonce_to2provedv <;>
  simp [msg70, err, Run.LOG, Run.call, Run.leave, Run.set_owner_blk_guid,
    Run.set_owner_blk_rvlst, Run.set_owner_blk_pk, Run.set_ST, Run.set_success,
    Run.set_state, bool_to_int32, spec_device_state, spec_committed_record, commit_calls,
    voided, outcome, h1, h2, h3, hk, hk', hn] <;>
  split_ifs <;> simp

/-- The value `msg70` returns, read off `outcome`. -/
theorem msg70_ret (env : Env) (ps : fdo_prot_t) :
    (msg70 env ps).ret = (outcome env ps).1 :=
  congrArg Prod.fst (msg70_outcome env ps)

/-- The context `msg70` leaves, read off `outcome`. -/
theorem msg70_ps (env : Env) (ps : fdo_prot_t) :
    (msg70 env ps).ps = (outcome env ps).2.1 :=
  congrArg (fun t => t.2.1) (msg70_outcome env ps)

/-- The calls `msg70` makes, read off `outcome`. -/
theorem msg70_trace (env : Env) (ps : fdo_prot_t) :
    (msg70 env ps).trace = (outcome env ps).2.2 :=
  congrArg (fun t => t.2.2) (msg70_outcome env ps)

/-- C1: in a session whose pending owner (guid, rendezvous list, public key) and
proof nonce are present, if `store_credential`, the writer calls and
`fdo_encrypted_packet_windup` succeed, then `msg70` returns 0, the one record
handed to `store_credential` has the owner block made of the pre-call `ps->osc`
guid, rvlst and pubkey (all three), and the session is marked completed. -/
theorem commit_success (env : Env) (ps : fdo_prot_t) (g r k : Nat)
    (nonce : fdo_byte_array_t)
    (hg : ps.osc.guid = some g) (hr : ps.osc.rvlst = some r) (hk : ps.osc.pubkey = some k)
    (hn : ps.nonce_to2provedv = some nonce)
    (hstore : env.store_credential (spec_committed_record env ps) = 0)
    (hstart : env.fdow_start_array 1 = true)
    (hbytes : env.fdow_byte_string nonce.bytes nonce.byte_sz = true)
    (hend : env.fdow_end_array = true)
    (hwind : env.fdo_encrypted_packet_windup env.FDO_TO2_DONE ps.iv = true) :
    (msg70 env ps).ret = 0 ∧
    store_calls (msg70 env ps).trace =
      [{ ST := spec_device_state env ps,
         owner_blk := { guid := some g, rvlst := some r, pk := some k } }] ∧
    (msg70 env ps).ps.success = true ∧
    (msg70 env ps).ps.state = env.FDO_STATE_TO2_RCV_DONE_2 := by
  rw [msg70_ret, msg70_ps, msg70_trace]
  simp only [outcome, hn, hstore, hstart, hbytes, hend, hwind]
  simp [commit_calls, store_calls, spec_committed_record, hg, hr, hk]

/-- Witness for C1 on the sample session with every collaborator succeeding. -/
theorem commit_success_witness :
    (msg70 env_ok ps_ok).ret = 0 ∧
    store_calls (msg70 env_ok ps_ok).trace =
      [{ ST := spec_device_state env_ok ps_ok,
         owner_blk := { guid := some 20, rvlst := some 21, pk := some 22 } }] ∧
    (msg70 env_ok ps_ok).ps.success = true ∧
    (msg70 env_ok ps_ok).ps.state = env_ok.FDO_STATE_TO2_RCV_DONE_2 :=
  commit_success env_ok ps_ok 20 21 22 { byte_sz := 2, bytes := [78, 49] }
    rfl rfl rfl rfl rfl rfl rfl rfl rfl

/-- C8: the device state of the record handed to `store_credential` is
`FDO_DEVICE_STATE_READY1` if reuse is enabled on the session and supported,
otherwise `FDO_DEVICE_STATE_IDLE` if resale is supported, otherwise the previous
device state; with reuse disabled and resale supported it is the idle state. -/
theorem device_state_selection (env : Env) (ps : fdo_prot_t) :
    (store_calls (msg70 env ps).trace).map (fun cred => cred.ST) =
      [if ps.reuse_enabled = true ∧ env.reuse_supported = true then
         env.FDO_DEVICE_STATE_READY1
       else if env.resale_supported = true then env.FDO_DEVICE_STATE_IDLE
       else ps.dev_cred.ST] ∧
    (ps.reuse_enabled = false → env.resale_supported = true →
      (store_calls (msg70 env ps).trace).map (fun cred => cred.ST) =
        [env.FDO_DEVICE_STATE_IDLE]) := by
  have h : (store_calls (msg70 env ps).trace).map (fun cred => cred.ST) =
      [spec_device_state env ps] := by
    rw [msg70_trace]
    simp only [outcome]
    split_ifs <;> (try split) <;> (try split_ifs) <;>
      simp [commit_calls, store_calls, spec_committed_record]
  refine ⟨by rw [h]; rfl, fun h1 h2 => ?_⟩
  rw [h]
  simp [spec_device_state, h1, h2]

/-- C9: in a session that reaches message construction (the persist step
succeeded) with a proof nonce present, the writer is given nothing but the
TO2.Done block, `start_array(1)`, the nonce bytes with their own length as one
byte string, `end_array` and then the envelope step with the session IV, in this
order; it is given all of them when the three body calls succeed. -/
theorem done_message_body (env : Env) (ps : fdo_prot_t) (nonce : fdo_byte_array_t)
    (hstore : env.store_credential (spec_committed_record env ps) = 0)
    (hn : ps.nonce_to2provedv = some nonce) :
    message_calls (msg70 env ps).trace <+:
      [.fdow_next_block env.FDO_TO2_DONE, .fdow_start_array 1,
       .fdow_byte_string nonce.bytes nonce.byte_sz, .fdow_end_array,
       .fdo_encrypted_packet_windup env.FDO_TO2_DONE ps.iv] ∧
    (env.fdow_start_array 1 = true →
     env.fdow_byte_string nonce.bytes nonce.byte_sz = true →
     env.fdow_end_array = true →
      message_calls (msg70 env ps).trace =
        [.fdow_next_block env.FDO_TO2_DONE, .fdow_start_array 1,
         .fdow_byte_string nonce.bytes nonce.byte_sz, .fdow_end_array,
         .fdo_encrypted_packet_windup env.FDO_TO2_DONE ps.iv]) := by
  rw [msg70_trace]
  simp only [outcome, hn, hstore]
  constructor
  · split_ifs <;>
      simp [commit_calls, message_calls, Call.is_message_call, List.prefix_iff_eq_take]
  · intro h1 h2 h3
    simp only [h1, h2, h3]
    split_ifs <;> simp_all [commit_calls, message_calls, Call.is_message_call]

/-- Witness for C9 on the sample session. -/
theorem done_message_body_witness :
    message_calls (msg70 env_ok ps_ok).trace <+:
      [.fdow_next_block 70, .fdow_start_array 1, .fdow_byte_string [78, 49] 2,
       .fdow_end_array, .fdo_encrypted_packet_windup 70 (some 30)] ∧
    (env_ok.fdow_start_array 1 = true →
     env_ok.fdow_byte_string [78, 49] 2 = true →
     env_ok.fdow_end_array = true →
      message_calls (msg70 env_ok ps_ok).trace =
        [.fdow_next_block 70, .fdow_start_array 1, .fdow_byte_string [78, 49] 2,
         .fdow_end_array, .fdo_encrypted_packet_windup 70 (some 30)]) :=
  done_message_body env_ok ps_ok { byte_sz := 2, bytes := [78, 49] } rfl rfl

/-- The paths of `outcome` do not look at the result of the key rotation. -/
theorem outcome_rotation (env : Env) (ps : fdo_prot_t) (k : Int) :
    outcome { env with fdo_generate_storage_hmac_key := k } ps = outcome env ps :=
  rfl

/-- C6: for every session and every behaviour of the other collaborators, the
run in which `fdo_generate_storage_hmac_key` fails (returns `k`, not 0) and the
run in which it succeeds (returns 0) give the same return value, the same record
to `store_credential`, the same writer calls and the same final `ps->success`
and `ps->state`; when all the other steps succeed the run with the failed
rotation still reaches the completed state. -/
theorem rotation_failure_nonfatal (env : Env) (ps : fdo_prot_t) (k : Int) (_hk : k ≠ 0) :
    (msg70 { env with fdo_generate_storage_hmac_key := k } ps).ret =
      (msg70 { env with fdo_generate_storage_hmac_key := 0 } ps).ret ∧
    store_calls (msg70 { env with fdo_generate_storage_hmac_key := k } ps).trace =
      store_calls (msg70 { env with fdo_generate_storage_hmac_key := 0 } ps).trace ∧
    message_calls (msg70 { env with fdo_generate_storage_hmac_key := k } ps).trace =
      message_calls (msg70 { env with fdo_generate_storage_hmac_key := 0 } ps).trace ∧
    (msg70 { env with fdo_generate_storage_hmac_key := k } ps).ps.success =
      (msg70 { env with fdo_generate_storage_hmac_key := 0 } ps).ps.success ∧
    (msg70 { env with fdo_generate_storage_hmac_key := k } ps).ps.state =
      (msg70 { env with fdo_generate_storage_hmac_key := 0 } ps).ps.state ∧
    (∀ nonce, ps.nonce_to2provedv = some nonce →
      env.store_credential (spec_committed_record env ps) = 0 →
      env.fdow_start_array 1 = true →
      env.fdow_byte_string nonce.bytes nonce.byte_sz = true →
      env.fdow_end_array = true →
      env.fdo_encrypted_packet_windup env.FDO_TO2_DONE ps.iv = true →
      (msg70 { env with fdo_generate_storage_hmac_key := k } ps).ret = 0 ∧
      (msg70 { env with fdo_generate_storage_hmac_key := k } ps).ps.success = true ∧
      (msg70 { env with fdo_generate_storage_hmac_key := k } ps).ps.state =
        env.FDO_STATE_TO2_RCV_DONE_2) := by
  simp only [msg70_ret, msg70_ps, msg70_trace, outcome_rotation]
  refine ⟨trivial, trivial, trivial, trivial, trivial, ?_⟩
  intro nonce hn hstore hstart hbytes hend hwind
  simp only [outcome, hn, hstore, hstart, hbytes, hend, hwind]
  simp

/-- Witness for C6: the sample session with the rotation returning -1. -/
theorem rotation_failure_nonfatal_witness :
    (msg70 { env_ok with fdo_generate_storage_hmac_key := -1 } ps_ok).ret =
      (msg70 { env_ok with fdo_generate_storage_hmac_key := 0 } ps_ok).ret ∧
    (msg70 { env_ok with fdo_generate_storage_hmac_key := -1 } ps_ok).ret = 0 ∧
    (msg70 { env_ok with fdo_generate_storage_hmac_key := -1 } ps_ok).ps.success = true :=
  have h := rotation_failure_nonfatal env_ok ps_ok (-1) (by decide)
  have h2 := h.2.2.2.2.2 { byte_sz := 2, bytes := [78, 49] } rfl rfl rfl rfl rfl rfl
  ⟨h.1, h2.1, h2.2.1⟩

/-- C7: in every run of `msg70` the calls come in this order: the three releases
of the old owner block, then `fdo_generate_storage_hmac_key` (once), then
`store_credential` (once), then message-construction calls only, and these only
if `store_credential` returned 0; `ps->success` or `ps->state` is changed only
in a run whose last call is the envelope step and in which that step
succeeded. -/
theorem effect_order (env : Env) (ps : fdo_prot_t) :
    ∃ post : List Call,
      (msg70 env ps).trace =
        [.fdo_byte_array_free ps.dev_cred.owner_blk.guid,
         .fdo_rendezvous_list_free ps.dev_cred.owner_blk.rvlst,
         .fdo_public_key_free ps.dev_cred.owner_blk.pk,
         .fdo_generate_storage_hmac_key,
         .store_credential (spec_committed_record env ps)] ++ post ∧
      (∀ c ∈ post, c.is_message_call = true) ∧
      (post ≠ [] → env.store_credential (spec_committed_record env ps) = 0) ∧
      (msg70 env ps).trace.count .fdo_generate_storage_hmac_key = 1 ∧
      (store_calls (msg70 env ps).trace).length = 1 ∧
      (((msg70 env ps).ps.success ≠ ps.success ∨ (msg70 env ps).ps.state ≠ ps.state) →
        post.getLast? = some (.fdo_encrypted_packet_windup env.FDO_TO2_DONE ps.iv) ∧
        env.fdo_encrypted_packet_windup env.FDO_TO2_DONE ps.iv = true) := by
  refine ⟨(msg70 env ps).trace.drop 5, ?_⟩
  rw [msg70_trace, msg70_ps]
  simp only [outcome]
  split_ifs <;> (try split) <;> (try split_ifs) <;>
    simp_all [commit_calls, store_calls, Call.is_message_call, voided]

/-- C2, counterexample: in the sample session without a proof nonce, with every
collaborator succeeding, `store_credential` is invoked with the new owner block,
the credential in memory is no longer the pre-call one, and the value returned
is 0. -/
theorem missing_nonce_not_gated :
    ps_no_nonce.nonce_to2provedv = none ∧
    store_calls (msg70 env_ok ps_no_nonce).trace =
      [{ ST := 5, owner_blk := { guid := some 20, rvlst := some 21, pk := some 22 } }] ∧
    (msg70 env_ok ps_no_nonce).ps.dev_cred ≠ ps_no_nonce.dev_cred ∧
    (msg70 env_ok ps_no_nonce).ret = 0 := by
  decide

/-- C2, amended: in a session whose proof nonce is missing `msg70` does not mark
the session completed and gives the writer no byte string, array end or
envelope; the nonce is looked at only during message construction, after the
single call of `store_credential` on the record that already carries the
pending owner and the selected device state, and when that call succeeded the
credential in memory has the selected device state and a voided owner block. -/
theorem nonce_checked_after_commit (env : Env) (ps : fdo_prot_t)
    (hn : ps.nonce_to2provedv = none) :
    (msg70 env ps).ps.success = ps.success ∧
    (msg70 env ps).ps.state = ps.state ∧
    store_calls (msg70 env ps).trace =
      [{ ST := spec_device_state env ps,
         owner_blk := { guid := ps.osc.guid, rvlst := ps.osc.rvlst, pk := ps.osc.pubkey } }] ∧
    message_calls (msg70 env ps).trace <+:
      [.fdow_next_block env.FDO_TO2_DONE, .fdow_start_array 1] ∧
    (env.store_credential (spec_committed_record env ps) = 0 →
      (msg70 env ps).ps.dev_cred =
        { ST := spec_device_state env ps,
          owner_blk := { guid := none, rvlst := none, pk := none } }) := by
  rw [msg70_trace, msg70_ps]
  simp only [outcome, hn]
  split_ifs <;>
    simp_all [commit_calls, store_calls, message_calls, Call.is_message_call, voided,
      spec_committed_record]

/-- Witness for the amended C2 on the sample session without a nonce. -/
theorem nonce_checked_after_commit_witness :
    (msg70 env_ok ps_no_nonce).ps.success = ps_no_nonce.success ∧
    (msg70 env_ok ps_no_nonce).ps.state = ps_no_nonce.state ∧
    store_calls (msg70 env_ok ps_no_nonce).trace =
      [{ ST := spec_device_state env_ok ps_no_nonce,
         owner_blk := { guid := ps_no_nonce.osc.guid, rvlst := ps_no_nonce.osc.rvlst,
                        pk := ps_no_nonce.osc.pubkey } }] ∧
    message_calls (msg70 env_ok ps_no_nonce).trace <+:
      [.fdow_next_block env_ok.FDO_TO2_DONE, .fdow_start_array 1] ∧
    (env_ok.store_credential (spec_committed_record env_ok ps_no_nonce) = 0 →
      (msg70 env_ok ps_no_nonce).ps.dev_cred =
        { ST := spec_device_state env_ok ps_no_nonce,
          owner_blk := { guid := none, rvlst := none, pk := none } }) :=
  nonce_checked_after_commit env_ok ps_no_nonce rfl

/-- C3, the code at a failing input: on the sample session with
`fdow_start_array` failing, `msg70` returns 0, the value of success, although it
has set neither `ps->success` nor `ps->state`. -/
theorem write_failure_returns_zero :
    env_start_fail.fdow_start_array 1 = false ∧
    (msg70 env_start_fail ps_ok).ret = 0 ∧
    (msg70 env_start_fail ps_ok).ps.success = false ∧
    (msg70 env_start_fail ps_ok).ps.state ≠ env_start_fail.FDO_STATE_TO2_RCV_DONE_2 := by
  decide

/-- C4, counterexample: on the sample session with reuse enabled and supported
and `store_credential` failing, the owner block and the device state of
`ps->dev_cred` after the call both differ from those before it. -/
theorem persist_failure_not_rolled_back :
    env_reuse.store_credential (spec_committed_record env_reuse ps_reuse) ≠ 0 ∧
    (msg70 env_reuse ps_reuse).ps.dev_cred.owner_blk ≠ ps_reuse.dev_cred.owner_blk ∧
    (msg70 env_reuse ps_reuse).ps.dev_cred.ST ≠ ps_reuse.dev_cred.ST := by
  decide

/-- C4, amended: if `store_credential` fails, `msg70` returns -1 without marking
the session completed and without any message-construction call, and the
credential in memory is not rolled back: the objects of the previous owner
block have been released and the device state is the one newly selected. -/
theorem persist_failure_aborts (env : Env) (ps : fdo_prot_t)
    (hstore : env.store_credential (spec_committed_record env ps) ≠ 0) :
    (msg70 env ps).ret = -1 ∧
    (msg70 env ps).ps.success = ps.success ∧
    (msg70 env ps).ps.state = ps.state ∧
    (msg70 env ps).trace =
      [.fdo_byte_array_free ps.dev_cred.owner_blk.guid,
       .fdo_rendezvous_list_free ps.dev_cred.owner_blk.rvlst,
       .fdo_public_key_free ps.dev_cred.owner_blk.pk,
       .fdo_generate_storage_hmac_key,
       .store_credential (spec_committed_record env ps)] ∧
    (msg70 env ps).ps.dev_cred.ST = spec_device_state env ps := by
  rw [msg70_ret, msg70_trace, msg70_ps]
  simp only [outcome]
  rw [if_pos hstore]
  simp [commit_calls, spec_committed_record]

/-- Witness for the amended C4 on the sample session with the store failing. -/
theorem persist_failure_aborts_witness :
    (msg70 env_store_fail ps_ok).ret = -1 ∧
    (msg70 env_store_fail ps_ok).ps.success = ps_ok.success ∧
    (msg70 env_store_fail ps_ok).ps.state = ps_ok.state ∧
    (msg70 env_store_fail ps_ok).trace =
      [.fdo_byte_array_free ps_ok.dev_cred.owner_blk.guid,
       .fdo_rendezvous_list_free ps_ok.dev_cred.owner_blk.rvlst,
       .fdo_public_key_free ps_ok.dev_cred.owner_blk.pk,
       .fdo_generate_storage_hmac_key,
       .store_credential (spec_committed_record env_store_fail ps_ok)] ∧
    (msg70 env_store_fail ps_ok).ps.dev_cred.ST = spec_device_state env_store_fail ps_ok :=
  persist_failure_aborts env_store_fail ps_ok (by decide)

/-- C5, the code at a failing input: on the sample session with
`store_credential` failing, at the return of `msg70` the pending owner and the
owner block of the credential hold the same guid, the same rendezvous list and
the same public key. -/
theorem persist_failure_keeps_aliases :
    (msg70 env_store_fail ps_ok).ret = -1 ∧
    same_object (msg70 env_store_fail ps_ok).ps.osc.guid
      (msg70 env_store_fail ps_ok).ps.dev_cred.owner_blk.guid = true ∧
    same_object (msg70 env_store_fail ps_ok).ps.osc.rvlst
      (msg70 env_store_fail ps_ok).ps.dev_cred.owner_blk.rvlst = true ∧
    same_object (msg70 env_store_fail ps_ok).ps.osc.pubkey
      (msg70 env_store_fail ps_ok).ps.dev_cred.owner_blk.pk = true := by
  decide

/-- C10, counterexample: on the sample session whose pending owner has no guid,
with every collaborator succeeding, `msg70` returns 0 and marks the session
completed, after handing `store_credential` a record whose guid is NULL. -/
theorem missing_owner_field_committed :
    ps_no_guid.osc.guid = none ∧
    (msg70 env_ok ps_no_guid).ret = 0 ∧
    (msg70 env_ok ps_no_guid).ps.success = true ∧
    store_calls (msg70 env_ok ps_no_guid).trace =
      [{ ST := 5, owner_blk := { guid := none, rvlst := some 21, pk := some 22 } }] := by
  decide

/-- C10, amended: `msg70` makes no presence check on the pending owner: in a
session where the guid, the rendezvous list or the public key of `ps->osc` is
missing, the record handed to `store_credential` still takes all three fields
from `ps->osc`, the missing ones as NULL, and if the nonce is present and
`store_credential`, the writer calls and the envelope step succeed, `msg70`
returns 0 and marks the session completed. -/
theorem owner_fields_not_checked (env : Env) (ps : fdo_prot_t)
    (_hmiss : ps.osc.guid = none ∨ ps.osc.rvlst = none ∨ ps.osc.pubkey = none) :
    store_calls (msg70 env ps).trace =
      [{ ST := spec_device_state env ps,
         owner_blk := { guid := ps.osc.guid, rvlst := ps.osc.rvlst, pk := ps.osc.pubkey } }] ∧
    (∀ nonce, ps.nonce_to2provedv = some nonce →
      env.store_credential (spec_committed_record env ps) = 0 →
      env.fdow_start_array 1 = true →
      env.fdow_byte_string nonce.bytes nonce.byte_sz = true →
      env.fdow_end_array = true →
      env.fdo_encrypted_packet_windup env.FDO_TO2_DONE ps.iv = true →
      (msg70 env ps).ret = 0 ∧ (msg70 env ps).ps.success = true ∧
      (msg70 env ps).ps.state = env.FDO_STATE_TO2_RCV_DONE_2) := by
  rw [msg70_ret, msg70_trace, msg70_ps]
  constructor
  · simp only [outcome]
    split_ifs <;> (try split) <;> (try split_ifs) <;>
      simp [commit_calls, store_calls, spec_committed_record]
  · intro nonce hn hstore hstart hbytes hend hwind
    simp only [outcome, hn, hstore, hstart, hbytes, hend, hwind]
    simp

/-- Witness for the amended C10 on the sample session without a pending guid. -/
theorem owner_fields_not_checked_witness :
    store_calls (msg70 env_ok ps_no_guid).trace =
      [{ ST := spec_device_state env_ok ps_no_guid,
         owner_blk := { guid := none, rvlst := some 21, pk := some 22 } }] ∧
    (msg70 env_ok ps_no_guid).ret = 0 ∧ (msg70 env_ok ps_no_guid).ps.success = true :=
  have h := owner_fields_not_checked env_ok ps_no_guid (Or.inl rfl)
  have h2 := h.2 { byte_sz := 2, bytes := [78, 49] } rfl rfl rfl rfl rfl rfl
  ⟨h.1, h2.1, h2.2.1⟩

end FDO
